import Mathlib

/-!
Shallow embedding of src/ytBot.py (YouTube audio Telegram bot): locator
validation, audit logging, progress reporting, download-path computation and
the message-handling pipeline, together with theorems settling the claims
C1-C10 about the specification.
-/

namespace YtBot

/-!
Locator Validator: validate_url, src/ytBot.py lines 25-34.

The Python function strips everything after the first question mark of the
input and then requires a full match (re.fullmatch) of the regular expression

  (scheme)? (www.)? (youtube|youtu|youtube-nocookie).(com|be)/
  (watch?v= | embed/ | v/ | .+?v=)? ([^&=%?]x11) (&.*)?

The matcher below decides the existence of a decomposition of the input along
this pattern, which is exactly what re.fullmatch decides: a regex dot matches
any character except newline, while the negated character class also matches
newline.
-/

/-- Character admissible in the 11-character identifier group of the regex
(anything but ampersand, equals, percent and question mark). -/
def idChar (c : Char) : Bool :=
  c != '&' && c != '=' && c != '%' && c != '?'

/-- Character matched by a regex dot (any character but newline). -/
def dotChar (c : Char) : Bool := c != '\n'

/-- Matches the optional trailing group of the regex: empty, or an ampersand
followed by arbitrary non-newline characters, consuming the whole rest. -/
def matchTrail : List Char → Bool
  | [] => true
  | '&' :: rest => rest.all dotChar
  | _ => false

/-- Matches the 11-character identifier group followed by the trailing group
against the whole remaining input. -/
def matchId (l : List Char) : Bool :=
  decide (11 ≤ l.length) && (l.take 11).all idChar && matchTrail (l.drop 11)

/-- Consumes the literal p from the front of l, returning the remainder. -/
def matchLit : List Char → List Char → Option (List Char)
  | [], l => some l
  | _, [] => none
  | p :: ps, c :: cs => if p = c then matchLit ps cs else none

/-- Matches a literal question mark, v, equals, then the identifier group. -/
def matchQvId (l : List Char) : Bool :=
  match matchLit ['?', 'v', '='] l with
  | some r => matchId r
  | none => false

/-- Matches one or more regex dots, then a question mark, v, equals, then the
identifier group (the fourth path alternative of the regex). -/
def matchDots : List Char → Bool
  | [] => false
  | c :: rest => dotChar c && (matchQvId rest || matchDots rest)

/-- Matches the optional path-shape group of the regex and everything after
it: no path shape, or one of watch?v=, embed/, v/, or dots followed by ?v=,
each followed by the identifier and trailing groups. -/
def matchPath (l : List Char) : Bool :=
  matchId l
  || (match matchLit "watch?v=".data l with | some r => matchId r | none => false)
  || (match matchLit "embed/".data l with | some r => matchId r | none => false)
  || (match matchLit "v/".data l with | some r => matchId r | none => false)
  || matchDots l

/-- The six host alternatives of the regex, spelled out: one of youtube,
youtu, youtube-nocookie, then a dot, then com or be, then a slash. -/
def hostAlts : List String :=
  ["youtube.com/", "youtube.be/", "youtu.com/", "youtu.be/",
   "youtube-nocookie.com/", "youtube-nocookie.be/"]

/-- Matches the host group of the regex and everything after it. -/
def matchHost (l : List Char) : Bool :=
  hostAlts.any fun h =>
    match matchLit h.data l with
    | some r => matchPath r
    | none => false

/-- Matches the optional www-dot group and everything after it. -/
def matchWww (l : List Char) : Bool :=
  matchHost l
  || (match matchLit "www.".data l with | some r => matchHost r | none => false)

/-- Matches the optional scheme group and everything after it. -/
def matchScheme (l : List Char) : Bool :=
  matchWww l
  || (match matchLit "http://".data l with | some r => matchWww r | none => false)
  || (match matchLit "https://".data l with | some r => matchWww r | none => false)

/-- re.fullmatch of the YouTube regex of src/ytBot.py against a string. -/
def youtube_regex_fullmatch (s : String) : Bool := matchScheme s.data

/-- validate_url from src/ytBot.py lines 25-34: keeps only the part of the
input before the first question mark (url.split on the question mark, first
component) and full-matches the regex against it. -/
def validate_url (url : String) : Bool :=
  let clean_url : List Char := url.data.takeWhile (fun c => c != '?')
  matchScheme clean_url

/-!
Extraction Orchestrator: download_audio, src/ytBot.py lines 83-140.

The function receives the locator, the Telegram update (which carries the
requester identity) and the cookies path. It validates the locator, asks the
extraction tool for the video title, and computes the output path as
os.path.join of the module directory with the title followed by the mp3
extension; the path is returned when the file exists after the download. The
extraction tool is modelled as an oracle mapping a locator to its title, and
the file system as an oracle on paths; the module directory (CURRENT_DIR,
fixed at process start) is a parameter.
-/

/-- Telegram update object as far as the pipeline uses it: it carries the
requester identity. -/
structure Update where
  username : String
deriving DecidableEq

/-- os.path.join for a directory and a relative file name. -/
def os_path_join (a b : String) : String := a ++ "/" ++ b

/-- download_audio from src/ytBot.py lines 83-140, reduced to its result: the
output path for a validated locator (lines 91-94, 120-122, 127-129), or none
when validation or the download fails. titleOf is the extraction tool's
title lookup (info_dict.get of the title, defaulting to unknown_title) and
fileExists the os.path.exists oracle. -/
def download_audio (currentDir : String) (titleOf : String → Option String)
    (fileExists : String → Bool) (youtube_url : String) (update : Update)
    (cookies_file_path : String) : Option String :=
  if ¬ validate_url youtube_url then none
  else
    let title := (titleOf youtube_url).getD "unknown_title"
    let final_audio_file_path := os_path_join currentDir (title ++ ".mp3")
    if fileExists final_audio_file_path then some final_audio_file_path else none

/-!
Activity Logger: log_user_activity, src/ytBot.py lines 37-56.

The audit-log file is modelled as an optional string: none when the file does
not exist, otherwise its contents. The Python code opens the file in append
mode (which creates it when missing) and only then tests os.path.exists on
the same path, so the embedding performs the open before the existence test,
exactly as the source does. The timestamp, produced by datetime.now in the
source, is a parameter.
-/

/-- os.path.exists on the modelled file. -/
def os_path_exists (file : Option String) : Bool := file.isSome

/-- Opening a file in append mode: creates it empty when missing, keeps the
contents otherwise; subsequent writes append. -/
def open_append (file : Option String) : Option String := some (file.getD "")

/-- The 4-field header row of the audit log. -/
def header : String := "Username,YouTube Link,Timestamp,Status\n"

/-- log_user_activity from src/ytBot.py lines 37-56: returns the file state
after the call. Empty username or link make the function return without
writing; otherwise the file is opened in append mode, the header is written
only if os.path.exists fails on the just-opened path, and the data row is
appended. -/
def log_user_activity (file : Option String) (username youtube_link : String)
    (timestamp : String) (success : Bool := true) : Option String :=
  if username = "" || youtube_link = "" then file
  else
    let status := if success then "Success" else "Failure"
    let row := username ++ "," ++ youtube_link ++ "," ++ timestamp ++ "," ++ status ++ "\n"
    let f := open_append file
    let f := if os_path_exists f = false then some (f.getD "" ++ header) else f
    some (f.getD "" ++ row)

/-!
Progress Monitor: update_progress, src/ytBot.py lines 59-80.

A progress sample is the dictionary the extraction tool passes to the hook,
reduced to the fields the code reads: whether the status key is present, the
status string, and the optional downloaded and total byte counts. The
outcome of a call is either a raised error or the emission it performs: no
event, a phase-only event, or a percentage event. Python division is
modelled as a fallible operation so that a division by zero would surface as
an error.
-/

/-- A raw progress sample as read by update_progress. -/
structure Sample where
  hasStatus : Bool
  status : String
  downloaded_bytes : Option Nat
  total_bytes : Option Nat
deriving DecidableEq

/-- What one call of update_progress emits. -/
inductive ProgressEmit where
  | noEvent
  | phaseOnly
  | percent (p : ℚ)
deriving DecidableEq

/-- Python truthiness of dict.get on an integer field: false for a missing
key and for zero. -/
def truthyNat (x : Option Nat) : Bool :=
  match x with
  | none => false
  | some n => n != 0

/-- Python division, raising on a zero divisor. -/
def pyDiv (a b : ℚ) : Except String ℚ :=
  if b = 0 then Except.error "ZeroDivisionError" else Except.ok (a / b)

/-- update_progress from src/ytBot.py lines 59-80: nothing is emitted unless
the status key is present, equals downloading, and the total-bytes field is
truthy; a zero total inside the branch returns early; otherwise the
percentage downloaded divided by total times one hundred is emitted. -/
def update_progress (d : Sample) : Except String ProgressEmit :=
  if d.hasStatus = false then Except.ok ProgressEmit.noEvent
  else if (d.status == "downloading") && truthyNat d.total_bytes then
    let downloaded_bytes := d.downloaded_bytes.getD 0
    let total_bytes := d.total_bytes.getD 0
    if total_bytes = 0 then Except.ok ProgressEmit.noEvent
    else (pyDiv (downloaded_bytes : ℚ) (total_bytes : ℚ)).map
      (fun q => ProgressEmit.percent (q * 100))
  else Except.ok ProgressEmit.noEvent

/-- The percentage emitted for a sample, if any. -/
def emits (d : Sample) : Option ℚ :=
  match update_progress d with
  | Except.ok (ProgressEmit.percent p) => some p
  | _ => none

/-- The successive percentages emitted over a request's sample sequence,
skipped samples excluded. -/
def emitted_percents (samples : List Sample) : List ℚ :=
  samples.filterMap emits

/-!
Delivery Manager: the retry loop of handle_message, src/ytBot.py
lines 162-176.

The loop runs over attempts 0, 1, 2; a successful send breaks out; a failed
attempt is logged, and on the last attempt the user-visible failure report is
issued. sendOk is the oracle telling whether the send of a given attempt
index succeeds. The result records the number of attempts made, whether a
send succeeded, and whether the persistent-failure report was issued.
-/

/-- One pass of the retry loop from a given attempt index, with structural
fuel bounding the remaining iterations. -/
def send_retries (sendOk : Nat → Bool) : Nat → Nat → Nat × Bool × Bool
  | 0, _ => (0, false, false)
  | fuel + 1, attempt =>
    if sendOk attempt then (1, true, false)
    else
      let r := send_retries sendOk fuel (attempt + 1)
      (r.1 + 1, r.2.1, r.2.2 || (attempt == 2))

/-- The whole delivery retry loop: for attempt in range of 3, starting at
attempt 0. Returns (attempts made, success, failure reported). -/
def deliver (sendOk : Nat → Bool) : Nat × Bool × Bool := send_retries sendOk 3 0

/-!
Pipeline Controller: handle_message, src/ytBot.py lines 143-192.

The trace records the user-facing reply calls with their positional
arguments (so that an argument that is the return value of a blocking sleep
call is visible as such), the calls made to log_user_activity with the
success flag each received, and the delivery outcome.
-/

/-- One positional argument of a reply call: either an ordinary text string,
or the return value of a blocking sleep of the given number of seconds. -/
inductive ReplyArg where
  | sleepReturn (seconds : Nat)
  | text (s : String)
deriving DecidableEq

/-- One user-facing reply call with its positional argument list. -/
structure ReplyCall where
  args : List ReplyArg
deriving DecidableEq

/-- The observable trace of one handle_message run. -/
structure HandleTrace where
  replies : List ReplyCall
  logCalls : List (String × String × Bool)
  sendAttempts : Nat
  sendSucceeded : Bool
deriving DecidableEq

/-- Python str.strip: removes whitespace from both ends. -/
def strip (s : String) : String :=
  ⟨((s.data.dropWhile Char.isWhitespace).reverse.dropWhile Char.isWhitespace).reverse⟩

/-- handle_message from src/ytBot.py lines 143-192 (replies internal to
download_audio omitted): an invalid locator is rejected and logged as a
failure; a missing artifact is reported and logged as a failure; otherwise
the delivery retry loop runs — issuing, when all three attempts fail, the
reply call whose first positional argument is the return value of a blocking
five-second sleep and whose second is the failure text, exactly as in the
source — and log_user_activity is then called with its success parameter
left at its default of true, whatever the loop's outcome was. -/
def handle_message (username text : String) (titleOf : String → Option String)
    (fileExists : String → Bool) (sendOk : Nat → Bool)
    (currentDir cookies : String) : HandleTrace :=
  let youtube_link := strip text
  if ¬ validate_url youtube_link then
    { replies := [⟨[ReplyArg.text "Error: Please send a valid YouTube link."]⟩],
      logCalls := [(username, youtube_link, false)],
      sendAttempts := 0, sendSucceeded := false }
  else
    match download_audio currentDir titleOf fileExists youtube_link ⟨username⟩ cookies with
    | some audio_file_path =>
      if fileExists audio_file_path then
        let r := deliver sendOk
        { replies :=
            ⟨[ReplyArg.text "Download complete. Sending audio file..."]⟩ ::
            (if r.2.2 then
              [⟨[ReplyArg.sleepReturn 5,
                 ReplyArg.text "Error: Failed to send the audio file. Please try again later."]⟩]
            else []),
          logCalls := [(username, youtube_link, true)],
          sendAttempts := r.1, sendSucceeded := r.2.1 }
      else
        { replies := [⟨[ReplyArg.text
            "Error: Failed to download the audio. The video might be unavailable or restricted."]⟩],
          logCalls := [(username, youtube_link, false)],
          sendAttempts := 0, sendSucceeded := false }
    | none =>
      { replies := [⟨[ReplyArg.text
          "Error: Failed to download the audio. The video might be unavailable or restricted."]⟩],
        logCalls := [(username, youtube_link, false)],
        sendAttempts := 0, sendSucceeded := false }

/-!
Theorems settling the claims.
-/

/-- C1: validate_url rejects the spec's canonical standard-watch-path
scenario locator (with and without trailing query parameters), because the
split at the first question mark removes the v= identifier before the regex
is matched, leaving the watch alternative of the code's own regex
unreachable; the short-link form, whose identifier precedes any question
mark, is accepted. -/
theorem C1_watch_url_rejected :
    validate_url "https://www.youtube.com/watch?v=dQw4w9WgXcQ&list=PL123" = false
    ∧ validate_url "https://www.youtube.com/watch?v=dQw4w9WgXcQ" = false
    ∧ validate_url "https://youtu.be/dQw4w9WgXcQ" = true := by
  decide

/-- C2: the artifact path computed by download_audio does not depend on the
requester at all — any two requests with the same locator obtain the very
same path whatever their requester identities are — and in particular two
requests by alice and by bob for the same locator both resolve to the same
concrete output file, contradicting the claimed per-request uniqueness. -/
theorem C2_path_collision :
    (∀ (currentDir cookies : String) (titleOf : String → Option String)
        (fileExists : String → Bool) (url : String) (u1 u2 : Update),
      download_audio currentDir titleOf fileExists url u1 cookies
        = download_audio currentDir titleOf fileExists url u2 cookies)
    ∧ download_audio "." (fun _ => some "song") (fun _ => true)
        "https://youtu.be/dQw4w9WgXcQ" ⟨"alice"⟩ "cookies.txt" = some "./song.mp3"
    ∧ download_audio "." (fun _ => some "song") (fun _ => true)
        "https://youtu.be/dQw4w9WgXcQ" ⟨"bob"⟩ "cookies.txt" = some "./song.mp3" :=
  ⟨fun _ _ _ _ _ _ _ => rfl, by decide, by decide⟩

/-- C3: the delivery loop attempts the send at most 3 times; the
persistent-failure report is issued exactly when all three attempts fail;
and when the first success happens on attempt index 0, 1 or 2, the loop
stops right there with 1, 2 or 3 attempts made and no further sends. -/
theorem C3_delivery_retry (sendOk : Nat → Bool) :
    (deliver sendOk).1 ≤ 3
    ∧ ((deliver sendOk).2.2 = true ↔
        (sendOk 0 = false ∧ sendOk 1 = false ∧ sendOk 2 = false))
    ∧ (sendOk 0 = true → (deliver sendOk).1 = 1)
    ∧ (sendOk 0 = false → sendOk 1 = true → (deliver sendOk).1 = 2)
    ∧ (sendOk 0 = false → sendOk 1 = false → sendOk 2 = true →
        (deliver sendOk).1 = 3) := by
  cases h0 : sendOk 0 <;> cases h1 : sendOk 1 <;> cases h2 : sendOk 2 <;>
    simp [deliver, send_retries, h0, h1, h2]

/-- C3 witness: with an always-succeeding send there is exactly one
attempt. -/
theorem C3_delivery_retry_witness : (deliver (fun _ => true)).1 = 1 :=
  (C3_delivery_retry (fun _ => true)).2.2.1 rfl

/-- C4: on a run whose three delivery attempts all fail, the final
user-facing failure report is issued with the return value of a blocking
five-second sleep as its first (text) positional argument and the failure
message only in second position — a delay is injected as a blocking argument
to a user-facing reply call, contradicting the claim. -/
theorem C4_sleep_injected_into_reply :
    (handle_message "alice" "https://youtu.be/dQw4w9WgXcQ" (fun _ => some "song")
        (fun _ => true) (fun _ => false) "." "cookies.txt").replies
      = [⟨[ReplyArg.text "Download complete. Sending audio file..."]⟩,
         ⟨[ReplyArg.sleepReturn 5,
           ReplyArg.text "Error: Failed to send the audio file. Please try again later."]⟩] := by
  decide

/-- C5: on a freshly created audit-log sink (the file does not exist before
the call), log_user_activity writes only the data row and no header at all,
because the append-mode open creates the file before the existence test
runs; the claimed write-header-exactly-once behaviour never happens. -/
theorem C5_no_header_on_new_file :
    log_user_activity none "alice" "https://youtu.be/dQw4w9WgXcQ"
        "2026-01-01 00:00:00" true
      = some "alice,https://youtu.be/dQw4w9WgXcQ,2026-01-01 00:00:00,Success\n" := by
  decide

/-- C6: on a run that reaches delivery and whose three send attempts all
fail, handle_message nevertheless calls the activity logger with the success
flag left at its default of true — the audit row records Success for a
delivery that failed, contradicting the claimed outcome agreement. -/
theorem C6_failed_delivery_logged_success :
    (handle_message "alice" "https://youtu.be/dQw4w9WgXcQ" (fun _ => some "song")
        (fun _ => true) (fun _ => false) "." "cookies.txt").sendSucceeded = false
    ∧ (handle_message "alice" "https://youtu.be/dQw4w9WgXcQ" (fun _ => some "song")
        (fun _ => true) (fun _ => false) "." "cookies.txt").sendAttempts = 3
    ∧ (handle_message "alice" "https://youtu.be/dQw4w9WgXcQ" (fun _ => some "song")
        (fun _ => true) (fun _ => false) "." "cookies.txt").logCalls
      = [("alice", "https://youtu.be/dQw4w9WgXcQ", true)] := by
  refine ⟨by decide, by decide, by decide⟩

/-- C10: with an empty username or an empty locator, log_user_activity
leaves the audit-log file untouched and returns normally, so the request
produces no audit row. -/
theorem C10_empty_args_no_write (file : Option String)
    (username youtube_link timestamp : String) (success : Bool)
    (h : username = "" ∨ youtube_link = "") :
    log_user_activity file username youtube_link timestamp success = file := by
  rcases h with h | h <;> simp [log_user_activity, h]

/-- C10 witness: an empty username writes nothing to an existing log. -/
theorem C10_empty_args_no_write_witness :
    log_user_activity (some "x") "" "https://youtu.be/dQw4w9WgXcQ" "t" true
      = some "x" :=
  C10_empty_args_no_write (some "x") "" "https://youtu.be/dQw4w9WgXcQ" "t" true
    (Or.inl rfl)

/-- Characterization of a percentage emission: update_progress emits a
percentage only when the total-bytes field holds a nonzero value, and the
percentage is then downloaded over total times one hundred. -/
lemma update_progress_percent_eq (d : Sample) (p : ℚ)
    (hp : update_progress d = Except.ok (ProgressEmit.percent p)) :
    ∃ n : Nat, d.total_bytes = some n ∧ n ≠ 0 ∧
      p = (d.downloaded_bytes.getD 0 : ℚ) / (n : ℚ) * 100 := by
  simp only [update_progress] at hp
  split at hp
  · exact absurd hp (by simp)
  · split at hp
    case isFalse => exact absurd hp (by simp)
    case isTrue hcond =>
      split at hp
      · exact absurd hp (by simp)
      case isFalse h3 =>
        have h2 : truthyNat d.total_bytes = true := by
          simp only [Bool.and_eq_true] at hcond
          exact hcond.2
        rcases htb : d.total_bytes with _ | n
        · rw [htb] at h2
          simp [truthyNat] at h2
        · rw [htb] at h2
          have hn : n ≠ 0 := by
            simpa [truthyNat] using h2
          refine ⟨n, rfl, hn, ?_⟩
          rw [htb] at hp
          have hq : ((some n).getD 0 : ℚ) ≠ 0 := by
            simpa using Nat.cast_ne_zero.mpr hn
          rw [pyDiv, if_neg hq] at hp
          simp only [Except.map, Option.getD_some] at hp
          have := (Except.ok.inj hp)
          have h5 := (ProgressEmit.percent.inj this)
          simpa using h5.symm

/-- C7 counterexample: a downloading sample whose total-bytes field is zero
produces no emission at all from update_progress — in particular no
phase-only downloading event, which the claim says is emitted. -/
theorem C7_no_phase_only_event :
    update_progress ⟨true, "downloading", some 5, some 0⟩
        = Except.ok ProgressEmit.noEvent
    ∧ Except.ok ProgressEmit.noEvent
        ≠ (Except.ok ProgressEmit.phaseOnly : Except String ProgressEmit) := by
  refine ⟨by rfl, by simp⟩

/-- C7 (amended): a progress sample whose total-bytes field is zero never
makes update_progress raise an error and never yields a percentage — the
sample is skipped entirely, with no event and no reply emitted. -/
theorem C7_zero_total_skipped (d : Sample) (h : d.total_bytes = some 0) :
    update_progress d = Except.ok ProgressEmit.noEvent := by
  simp [update_progress, h, truthyNat]

/-- C7 witness: a concrete zero-total downloading sample is skipped without
an error. -/
theorem C7_zero_total_skipped_witness :
    update_progress ⟨true, "downloading", some 7, some 0⟩
      = Except.ok ProgressEmit.noEvent :=
  C7_zero_total_skipped ⟨true, "downloading", some 7, some 0⟩ rfl

/-- C8 counterexample: a sample whose downloaded bytes exceed its (positive)
total makes update_progress emit a percentage of 200, outside the claimed
closed interval from 0 to 100. -/
theorem C8_percent_above_100 :
    update_progress ⟨true, "downloading", some 200, some 100⟩
        = Except.ok (ProgressEmit.percent 200)
    ∧ ¬ ((200 : ℚ) ≤ 100) := by
  refine ⟨?_, by norm_num⟩
  norm_num [update_progress, truthyNat, pyDiv, Except.map]

/-- C8 (amended): for every progress sample whose total-bytes field holds a
positive value and whose downloaded bytes do not exceed that total, any
percentage emitted by update_progress lies between 0 and 100. -/
theorem C8_percent_bounds (d : Sample) (n : Nat) (ht : d.total_bytes = some n)
    (hd : d.downloaded_bytes.getD 0 ≤ n) (p : ℚ)
    (hp : update_progress d = Except.ok (ProgressEmit.percent p)) :
    0 ≤ p ∧ p ≤ 100 := by
  obtain ⟨m, hm, hm0, hpe⟩ := update_progress_percent_eq d p hp
  rw [ht] at hm
  have hmn : n = m := Option.some.inj hm
  subst hmn
  have hnq : (0 : ℚ) < (n : ℚ) := by
    exact_mod_cast Nat.pos_of_ne_zero hm0
  constructor
  · rw [hpe]
    positivity
  · rw [hpe]
    have hcast : (d.downloaded_bytes.getD 0 : ℚ) ≤ (n : ℚ) := by exact_mod_cast hd
    calc (d.downloaded_bytes.getD 0 : ℚ) / (n : ℚ) * 100 ≤ 1 * 100 := by
          refine mul_le_mul_of_nonneg_right ?_ (by norm_num)
          exact (div_le_one hnq).mpr hcast
      _ = 100 := by norm_num

/-- C8 witness: a half-downloaded sample emits 50, which the amended bound
places between 0 and 100. -/
theorem C8_percent_bounds_witness :
    update_progress ⟨true, "downloading", some 50, some 100⟩
        = Except.ok (ProgressEmit.percent 50)
    ∧ (0 ≤ (50 : ℚ) ∧ (50 : ℚ) ≤ 100) :=
  ⟨by norm_num [update_progress, truthyNat, pyDiv, Except.map],
   C8_percent_bounds ⟨true, "downloading", some 50, some 100⟩ 100 rfl
     (by norm_num) 50
     (by norm_num [update_progress, truthyNat, pyDiv, Except.map])⟩

/-- The percentage a sample emits, when it emits one, in terms of its fields
and a fixed total. -/
lemma emits_formula (T : Nat) (d : Sample) (hT : d.total_bytes = some T)
    (hs : (emits d).isSome = true) :
    emits d = some ((d.downloaded_bytes.getD 0 : ℚ) / (T : ℚ) * 100) := by
  rcases he : emits d with _ | p
  · rw [he] at hs
    simp at hs
  · have hup : update_progress d = Except.ok (ProgressEmit.percent p) := by
      unfold emits at he
      split at he
      case h_1 q heq =>
        rw [Option.some.inj he] at heq
        exact heq
      case h_2 => exact absurd he (by simp)
    obtain ⟨m, hm, _, hpe⟩ := update_progress_percent_eq d p hup
    rw [hT] at hm
    have hTm : T = m := Option.some.inj hm
    subst hTm
    rw [hpe]

/-- The emitted-percentage stream of a sample sequence with a fixed total is
the image of its emitting samples under the percentage formula. -/
lemma emitted_eq_map (T : Nat) (samples : List Sample)
    (htot : ∀ d ∈ samples, (emits d).isSome = true → d.total_bytes = some T) :
    emitted_percents samples
      = (samples.filter (fun d => (emits d).isSome)).map
          (fun d => (d.downloaded_bytes.getD 0 : ℚ) / (T : ℚ) * 100) := by
  induction samples with
  | nil => rfl
  | cons d rest ih =>
    have ih' := ih fun x hx h => htot x (List.mem_cons_of_mem _ hx) h
    rcases he : emits d with _ | p
    · simp only [emitted_percents, List.filterMap_cons, he, List.filter_cons]
      rw [if_neg (by simp [he])]
      exact ih'
    · have hT := htot d (List.mem_cons_self d rest) (by simp [he])
      have hf := emits_formula T d hT (by simp [he])
      rw [he] at hf
      simp only [emitted_percents, List.filterMap_cons, he, List.filter_cons]
      rw [if_pos (by simp [he])]
      rw [List.map_cons]
      rw [Option.some.inj hf]
      exact congrArg _ ih'

/-- C9 counterexample: two downloading samples with non-decreasing
downloaded bytes but differing totals emit the percentages 50 and then 15 —
the emitted sequence of this request decreases, contradicting the claim as
stated over arbitrary sample sequences. -/
theorem C9_decreasing_percents :
    emitted_percents
        [⟨true, "downloading", some 10, some 20⟩,
         ⟨true, "downloading", some 15, some 100⟩] = [50, 15]
    ∧ ¬ List.Chain' (· ≤ ·)
        (emitted_percents
          [⟨true, "downloading", some 10, some 20⟩,
           ⟨true, "downloading", some 15, some 100⟩]) := by
  have hev : emitted_percents
      [⟨true, "downloading", some 10, some 20⟩,
       ⟨true, "downloading", some 15, some 100⟩] = [50, 15] := by
    norm_num [emitted_percents, List.filterMap_cons, emits, update_progress,
      truthyNat, pyDiv, Except.map]
  refine ⟨hev, ?_⟩
  rw [hev]
  intro h
  have h50 : (50 : ℚ) ≤ 15 := (List.chain'_cons.mp h).1
  norm_num at h50

/-- C9 (amended): over a request whose samples keep one fixed total-bytes
value on every emitting sample and report non-decreasing downloaded bytes
across the emitting samples — the cumulative byte counters of one download,
as the spec's ProgressEvent invariant presupposes — the successive emitted
percentages, skipped samples excluded, are non-decreasing. -/
theorem C9_percents_monotone (samples : List Sample) (T : Nat)
    (htot : ∀ d ∈ samples, (emits d).isSome = true → d.total_bytes = some T)
    (hmono : List.Chain' (fun a b : Sample =>
        a.downloaded_bytes.getD 0 ≤ b.downloaded_bytes.getD 0)
      (samples.filter (fun d => (emits d).isSome))) :
    List.Chain' (· ≤ ·) (emitted_percents samples) := by
  rw [emitted_eq_map T samples htot, List.chain'_map]
  refine hmono.imp ?_
  intro a b hab
  by_cases hT : (T : ℚ) = 0
  · simp [hT]
  · have hTpos : (0 : ℚ) < (T : ℚ) :=
      lt_of_le_of_ne (Nat.cast_nonneg T) (Ne.symm hT)
    have hcast : (a.downloaded_bytes.getD 0 : ℚ)
        ≤ (b.downloaded_bytes.getD 0 : ℚ) := by exact_mod_cast hab
    exact mul_le_mul_of_nonneg_right
      ((div_le_div_iff_of_pos_right hTpos).mpr hcast) (by norm_num)

/-- C9 witness: a request downloading 10 then 30 of 100 bytes emits the
non-decreasing percentages 10 and 30. -/
theorem C9_percents_monotone_witness :
    List.Chain' (· ≤ ·)
      (emitted_percents
        [⟨true, "downloading", some 10, some 100⟩,
         ⟨true, "downloading", some 30, some 100⟩]) :=
  C9_percents_monotone _ 100
    (by
      intro d hd _
      rcases List.mem_cons.mp hd with rfl | hd
      · rfl
      · rcases List.mem_cons.mp hd with rfl | hd
        · rfl
        · exact absurd hd (List.not_mem_nil d))
    (by
      have e1 : emits ⟨true, "downloading", some 10, some 100⟩ = some 10 := by
        norm_num [emits, update_progress, truthyNat, pyDiv, Except.map]
      have e2 : emits ⟨true, "downloading", some 30, some 100⟩ = some 30 := by
        norm_num [emits, update_progress, truthyNat, pyDiv, Except.map]
      simp [List.filter_cons, e1, e2, List.chain'_cons])

end YtBot
